import Mathlib

/-!
Verification of the document/view layer of `aiowolframalpha`
(`src/aiowolframalpha/__init__.py`).

The library decodes the service's XML response with the external
`xmltodict` collaborator into a tree of string-keyed mappings, lists,
strings and `None`; `DocVal` mirrors exactly that shape.  The view classes
(`Result`, `Pod`, `Subpod`, `Image`, `Assumption`, `Warning`) are `dict`
subclasses wrapping slices of that tree; they are embedded as structures
holding their backing mapping.  Python exceptions are modelled with
`Except Err`; each constructor of `Err` stands for one Python exception
class, so that which exception an access raises is part of the model.
-/

/-- A value of the decoded XML document: `xmltodict` with
`dict_constructor=dict` produces only `None` (empty elements), strings
(text and attribute values), mappings and lists of mappings. -/
inductive DocVal where
  | null : DocVal
  | str : String → DocVal
  | obj : List (String × DocVal) → DocVal
  | arr : List DocVal → DocVal
deriving Repr

mutual

/-- Python `==` on decoded values: structural equality of the underlying
`None`/`str`/`dict`/`list` trees (used for dict keys in comprehensions). -/
def docBeq : DocVal → DocVal → Bool
  | DocVal.null, DocVal.null => true
  | DocVal.str s, DocVal.str t => s == t
  | DocVal.obj fs, DocVal.obj gs => docBeqFields fs gs
  | DocVal.arr xs, DocVal.arr ys => docBeqItems xs ys
  | _, _ => false

def docBeqFields : List (String × DocVal) → List (String × DocVal) → Bool
  | [], [] => true
  | (k, v) :: rest, (k', v') :: rest' =>
    k == k' && docBeq v v' && docBeqFields rest rest'
  | _, _ => false

def docBeqItems : List DocVal → List DocVal → Bool
  | [], [] => true
  | v :: rest, v' :: rest' => docBeq v v' && docBeqItems rest rest'
  | _, _ => false

end

/-- The Python exceptions the document layer can raise. -/
inductive Err where
  | attributeError (name : String)
  | keyError
  | typeError
  | valueError
  | stopIteration
  | exception (msg : String)
deriving Repr

/-- A backing mapping: what a `Document` subclass instance wraps. -/
abbrev Obj := List (String × DocVal)

/-- Python dict key lookup (`k in self` / `self[k]`).  `xmltodict` output
has unique keys, so first-match lookup on the association list is exact. -/
def lookupKey (o : Obj) (k : String) : Option DocVal :=
  match o with
  | [] => none
  | (k', v) :: rest => if k' = k then some v else lookupKey rest k

/-- Python `str()` of a decoded value, as used when formatting the error
template.  Exact for the shapes `xmltodict` produces for the `code` and
`msg` children (strings, or `None` for an empty element); container
values, which the service's error block never holds, get a fixed marker
instead of a full `repr`. -/
def pyStr : DocVal → String
  | DocVal.str s => s
  | DocVal.null => "None"
  | DocVal.obj _ => "\x7b...\x7d"
  | DocVal.arr _ => "[...]"

/-- `ErrorHandler._handle_error`: return silently unless the plain key
`'error'` is in the mapping (the `'@error'` attribute key is never
consulted); otherwise raise
`Exception('Error {error[code]}: {error[msg]}'.format(**self))`.
Formatting indexes the error value with the string keys `'code'` and
`'msg'`: a missing key raises `KeyError`, a non-mapping error value
raises `TypeError` from the indexing. -/
def handle_error (o : Obj) : Except Err Unit :=
  match lookupKey o "error" with
  | none => Except.ok ()
  | some (DocVal.obj e) =>
    match lookupKey e "code", lookupKey e "msg" with
    | some c, some m =>
      Except.error (Err.exception ("Error " ++ pyStr c ++ ": " ++ pyStr m))
    | _, _ => Except.error Err.keyError
  | some _ => Except.error Err.typeError

/-- The value lookup of `Document.__getattr__`: the plain key first, then
the `"@"`-prefixed attribute key, and `AttributeError(name)` when neither
is present. -/
def rawAttr (o : Obj) (name : String) : Except Err DocVal :=
  match lookupKey o name with
  | some v => Except.ok v
  | none =>
    match lookupKey o ("@" ++ name) with
    | some v => Except.ok v
    | none => Except.error (Err.attributeError name)

/-- `Document.__getattr__`: look the value up under the two key
conventions and apply the conversion registered for the name in the
class's `_attr_types` table (identity for unregistered names).  Each
accessor below passes its class's registered conversion explicitly. -/
def getattr (o : Obj) (name : String) (conv : DocVal → Except Err α) : Except Err α :=
  match rawAttr o name with
  | Except.ok v => conv v
  | Except.error e => Except.error e

/-- `more_itertools.always_iterable(doc, base_type=dict)`: `None` yields
nothing, a mapping (the `base_type`) is treated as a single item, a list
yields its items, and a string — no longer a base type once
`base_type=dict` replaces the default — yields its characters. -/
def always_iterable : DocVal → List DocVal
  | DocVal.null => []
  | DocVal.obj o => [DocVal.obj o]
  | DocVal.arr xs => xs
  | DocVal.str s => s.toList.map (fun c => DocVal.str (String.mk [c]))

/-- `Document.from_doc`: `map(cls, always_iterable(doc, base_type=dict))`,
with the class constructor `mk` applied to every item.  Applying a
`dict`-based class to a non-mapping item raises `TypeError`. -/
def from_doc (mk : Obj → Except Err α) (doc : DocVal) : Except Err (List α) :=
  (always_iterable doc).mapM (fun v =>
    match v with
    | DocVal.obj o => mk o
    | _ => Except.error Err.typeError)

structure Subpod where
  toObj : Obj
deriving Repr

structure Image where
  toObj : Obj
deriving Repr

structure Assumption where
  toObj : Obj
deriving Repr

structure Warning where
  toObj : Obj
deriving Repr

structure Pod where
  toObj : Obj
deriving Repr

structure Result where
  toObj : Obj
deriving Repr

/-- Constructing a `Pod`: `dict` initialisation from the backing mapping,
then `ErrorHandler._handle_error` (the `ErrorHandler` mixin runs the
error check right after the dict is populated). -/
def Pod.make (o : Obj) : Except Err Pod :=
  match handle_error o with
  | Except.ok _ => Except.ok ⟨o⟩
  | Except.error e => Except.error e

/-- Constructing a `Result`: the raw XML text is decoded by the external
`xmltodict` collaborator and the top-level `queryresult` mapping is fed
to `dict` initialisation followed by `ErrorHandler._handle_error`; the
embedding starts from that decoded mapping. -/
def Result.make (o : Obj) : Except Err Result :=
  match handle_error o with
  | Except.ok _ => Except.ok ⟨o⟩
  | Except.error e => Except.error e

/-- `Subpod.plaintext` is plain `__getattr__` access (no conversion is
registered for the name). -/
def Subpod.plaintext (sp : Subpod) : Except Err DocVal :=
  getattr sp.toObj "plaintext" Except.ok

/-- `Subpod._attr_types` registers `img=Image.from_doc`. -/
def Subpod.img (sp : Subpod) : Except Err (List Image) :=
  getattr sp.toObj "img" (from_doc (fun o => Except.ok (Image.mk o)))

/-- `Pod.subpods` = `self.subpod`; `Pod._attr_types` registers
`subpod=Subpod.from_doc` (a `Subpod` is a plain `Document`, so wrapping
an item never error-checks it). -/
def Pod.subpods (p : Pod) : Except Err (List Subpod) :=
  getattr p.toObj "subpod" (from_doc (fun o => Except.ok (Subpod.mk o)))

/-- `Pod.title` is plain `__getattr__` access. -/
def Pod.title (p : Pod) : Except Err DocVal :=
  getattr p.toObj "title" Except.ok

/-- `Pod.plainText` is plain `__getattr__` access; note the capital `T` —
this is the exact name `Result.details` asks each pod for. -/
def Pod.plainText (p : Pod) : Except Err DocVal :=
  getattr p.toObj "plainText" Except.ok

/-- A JSON integer numeral body: digits with no leading zero. -/
def digitsNoLeadZero : List Char → Bool
  | [] => false
  | [c] => c.isDigit
  | c :: rest => c.isDigit && c != '0' && rest.all Char.isDigit

/-- Recognizer for a JSON integer numeral (optionally negated). -/
def jsonIntLit (s : String) : Bool :=
  match s.toList with
  | '-' :: rest => digitsNoLeadZero rest
  | l => digitsNoLeadZero l

def natOfDigits (l : List Char) : Nat :=
  l.foldl (fun n c => 10 * n + (c.toNat - 48)) 0

def jsonIntVal (s : String) : Int :=
  match s.toList with
  | '-' :: rest => - Int.ofNat (natOfDigits rest)
  | l => Int.ofNat (natOfDigits l)

/-- The Python values `json.loads` returns in the model below. -/
inductive PyVal where
  | none : PyVal
  | bool (b : Bool) : PyVal
  | int (n : Int) : PyVal
deriving Repr

/-- Model of the standard-library `json.loads` on the scalar JSON texts
relevant to `xml_bool`: the literals `true`, `false`, `null` and integer
numerals; every other input is modelled as a `JSONDecodeError`.  (Real
`json.loads` accepts further JSON texts such as floats, strings and
containers; no theorem below relies on the error branch beyond the
literal `"maybe"`, which is a decode error in Python as well.) -/
def json_loads (s : String) : Except Err PyVal :=
  if s = "true" then Except.ok (PyVal.bool true)
  else if s = "false" then Except.ok (PyVal.bool false)
  else if s = "null" then Except.ok PyVal.none
  else if jsonIntLit s then Except.ok (PyVal.int (jsonIntVal s))
  else Except.error Err.valueError

/-- Python `bool()` truthiness on the values `json_loads` can return. -/
def pyTruthy : PyVal → Bool
  | PyVal.none => false
  | PyVal.bool b => b
  | PyVal.int n => n != 0

/-- `xml_bool(str_val)` = `bool(json.loads(str_val))`. -/
def xml_bool (s : String) : Except Err Bool :=
  match json_loads s with
  | Except.ok v => Except.ok (pyTruthy v)
  | Except.error e => Except.error e

/-- `Pod.primary` = `'@primary' in self and xml_bool(self['@primary'])`:
the declared property checks the attribute key directly and returns
`False` (the result of `and`) when it is absent; `json.loads` of a
non-string raises `TypeError`. -/
def Pod.primary (p : Pod) : Except Err Bool :=
  match lookupKey p.toObj "@primary" with
  | none => Except.ok false
  | some (DocVal.str s) => xml_bool s
  | some _ => Except.error Err.typeError

/-- `Pod.texts`: `[subpod.plaintext for subpod in self.subpod]`. -/
def Pod.texts (p : Pod) : Except Err (List DocVal) :=
  match Pod.subpods p with
  | Except.ok sps => sps.mapM Subpod.plaintext
  | Except.error e => Except.error e

/-- `Pod.text`: `next(iter(self.subpod)).plaintext`; `next` on an
exhausted iterator raises `StopIteration`. -/
def Pod.text (p : Pod) : Except Err DocVal :=
  match Pod.subpods p with
  | Except.ok [] => Except.error Err.stopIteration
  | Except.ok (sp :: _) => Subpod.plaintext sp
  | Except.error e => Except.error e

/-- `Result.pods` = `self.pod`; `Result._attr_types` registers
`pod=Pod.from_doc`, and constructing each `Pod` runs its error check. -/
def Result.pods (r : Result) : Except Err (List Pod) :=
  getattr r.toObj "pod" (from_doc Pod.make)

/-- `Result.assumptions`: `Assumption.from_doc(self.get('assumptions'))`;
`dict.get` yields `None` for an absent key, which `from_doc` normalizes
to an empty sequence.  Note the code wraps the `assumptions` container
value itself, not its children. -/
def Result.assumptions (r : Result) : Except Err (List Assumption) :=
  from_doc (fun o => Except.ok (Assumption.mk o))
    (match lookupKey r.toObj "assumptions" with
     | some v => v
     | none => DocVal.null)

/-- `Result.warnings`: `Warning.from_doc(self.get('warnings'))`. -/
def Result.warnings (r : Result) : Except Err (List Warning) :=
  from_doc (fun o => Except.ok (Warning.mk o))
    (match lookupKey r.toObj "warnings" with
     | some v => v
     | none => DocVal.null)

/-- An element of the mixed stream `Result.info` yields. -/
inductive Info where
  | pod (p : Pod) : Info
  | assumption (a : Assumption) : Info
  | warning (w : Warning) : Info
deriving Repr

/-- `Result.info`: `itertools.chain(self.pods, self.assumptions,
self.warnings)`, consumed in that order (this is also what `__iter__`
returns). -/
def Result.info (r : Result) : Except Err (List Info) :=
  match Result.pods r with
  | Except.error e => Except.error e
  | Except.ok ps =>
    match Result.assumptions r with
    | Except.error e => Except.error e
    | Except.ok asms =>
      match Result.warnings r with
      | Except.error e => Except.error e
      | Except.ok ws =>
        Except.ok (ps.map Info.pod ++ asms.map Info.assumption ++ ws.map Info.warning)

/-- `Result.__len__`: `sum(1 for _ in self.info)`. -/
def Result.length (r : Result) : Except Err Nat :=
  match Result.info r with
  | Except.ok l => Except.ok l.length
  | Except.error e => Except.error e

/-- The filter condition of `Result.results`:
`pod.primary or pod.title == 'Result'` — Python `or` consults the title
only when `primary` evaluated to a falsy value, and `==` against a
non-string title is simply `False`. -/
def Pod.isPrimaryOrResult (p : Pod) : Except Err Bool :=
  match Pod.primary p with
  | Except.error e => Except.error e
  | Except.ok true => Except.ok true
  | Except.ok false =>
    match Pod.title p with
    | Except.error e => Except.error e
    | Except.ok (DocVal.str s) => Except.ok (s == "Result")
    | Except.ok _ => Except.ok false

/-- The boolean decision `Pod.isPrimaryOrResult` makes when it succeeds. -/
def Pod.keepInResults (p : Pod) : Bool :=
  match Pod.isPrimaryOrResult p with
  | Except.ok true => true
  | _ => false

/-- Consuming a Python generator expression `(x for x in xs if f x)`:
the condition runs per item and any exception it raises propagates. -/
def filterExc (f : α → Except Err Bool) : List α → Except Err (List α)
  | [] => Except.ok []
  | x :: xs =>
    match f x with
    | Except.error e => Except.error e
    | Except.ok b =>
      match filterExc f xs with
      | Except.error e => Except.error e
      | Except.ok rest => Except.ok (if b then x :: rest else rest)

/-- `Result.results`: the generator filtering `self.pods` on
`pod.primary or pod.title == 'Result'`, consumed as a list. -/
def Result.results (r : Result) : Except Err (List Pod) :=
  match Result.pods r with
  | Except.error e => Except.error e
  | Except.ok ps => filterExc Pod.isPrimaryOrResult ps

/-- Python dict insertion as performed by a dict comprehension: an
existing (`==`-equal) key keeps its position and takes the new value, a
new key is appended. -/
def dictInsert : List (DocVal × DocVal) → DocVal → DocVal → List (DocVal × DocVal)
  | [], k, v => [(k, v)]
  | (k', v') :: rest, k, v =>
    if docBeq k' k then (k', v) :: rest else (k', v') :: dictInsert rest k v

/-- The loop of the `Result.details` comprehension
`{pod.title: pod.plainText for pod in self.pods}`: per pod the key
expression `pod.title` is evaluated, then the value expression
`pod.plainText`, and the pair is inserted (so the last pod with an
`==`-equal title wins). -/
def detailsLoop (acc : List (DocVal × DocVal)) :
    List Pod → Except Err (List (DocVal × DocVal))
  | [] => Except.ok acc
  | p :: rest =>
    match Pod.title p with
    | Except.error e => Except.error e
    | Except.ok t =>
      match Pod.plainText p with
      | Except.error e => Except.error e
      | Except.ok v => detailsLoop (dictInsert acc t v) rest

/-- `Result.details`: `{pod.title: pod.plainText for pod in self.pods}`. -/
def Result.details (r : Result) : Except Err (List (DocVal × DocVal)) :=
  match Result.pods r with
  | Except.error e => Except.error e
  | Except.ok ps => detailsLoop [] ps

/-- Python `str.replace` over code points: replace every non-overlapping
occurrence of `pat`, scanning left to right.  The fuel starts at the
length of the scanned list and decreases in lock-step with it, so the
out-of-fuel branch is never taken. -/
def replaceFuel (pat rep : List Char) : Nat → List Char → List Char
  | _, [] => []
  | 0, s => s
  | Nat.succ fuel, c :: rest =>
    if pat ≠ [] ∧ pat.isPrefixOf (c :: rest) then
      rep ++ replaceFuel pat rep fuel (rest.drop (pat.length - 1))
    else
      c :: replaceFuel pat rep fuel rest

/-- Python `s.replace(pat, rep)` (both patterns here are nonempty). -/
def pyReplace (s pat rep : String) : String :=
  String.mk (replaceFuel pat.toList rep.toList s.toList.length s.toList)

/-- Python `s.index(sub)`: code-point index of the first occurrence of
`sub` in `s`, or `None` standing for the `ValueError` it raises. -/
def indexOfSub (pat : List Char) : List Char → Option Nat
  | [] => if pat = [] then some 0 else none
  | c :: rest =>
    if pat.isPrefixOf (c :: rest) then some 0
    else
      match indexOfSub pat rest with
      | some i => some (i + 1)
      | none => none

/-- Python `s[: n]` for `0 ≤ n`: the first `n` code points. -/
def pySlice (s : String) (n : Nat) : String :=
  String.mk (s.toList.take n)

/-- `Assumption.text`: substitute the description into the template at
`${desc1}`, attempt the word substitution at `${word}` with any
exception from it silently swallowed by the bare `except` (this covers
both a missing `word` attribute and a non-string one), then truncate at
`text.index('. ') + 1` (`str.index` raises `ValueError` when the
two-character sequence is absent).  Looking up `.replace` on a
non-string template raises `AttributeError('replace')` before the
description is evaluated; a non-string description makes
`str.replace` raise `TypeError`. -/
def Assumption.text (a : Assumption) : Except Err String :=
  match rawAttr a.toObj "template" with
  | Except.error e => Except.error e
  | Except.ok (DocVal.str t) =>
    match rawAttr a.toObj "description" with
    | Except.error e => Except.error e
    | Except.ok (DocVal.str d) =>
      let text1 := pyReplace t "${desc1}" d
      let text2 :=
        match rawAttr a.toObj "word" with
        | Except.ok (DocVal.str w) => pyReplace text1 "${word}" w
        | _ => text1
      match indexOfSub ". ".toList text2.toList with
      | some i => Except.ok (pySlice text2 (i + 1))
      | none => Except.error Err.valueError
    | Except.ok _ => Except.error Err.typeError
  | Except.ok _ => Except.error (Err.attributeError "replace")

theorem filterExc_eq_filter {α : Type} (f : α → Except Err Bool) (g : α → Bool) :
    ∀ xs : List α, (∀ x ∈ xs, f x = Except.ok (g x)) →
      filterExc f xs = Except.ok (xs.filter g) := by
  intro xs
  induction xs with
  | nil => intro _; rfl
  | cons x rest ih =>
    intro h
    have hx := h x (by simp)
    have hrest := ih (fun y hy => h y (by simp [hy]))
    rw [List.filter_cons]
    cases hgx : g x with
    | true =>
      rw [hgx] at hx
      simp [filterExc, hx, hrest]
    | false =>
      rw [hgx] at hx
      simp [filterExc, hx, hrest]

/-- C2: a backing mapping whose plain `error` key holds a mapping with
`code` and `msg` children makes `Result` and `Pod` construction fail at
the error check with the message `Error <code>: <msg>`, and a mapping
without that key always constructs successfully. -/
theorem C2_error_handler_spec (o : Obj) :
    (∀ (e : Obj) (c m : String),
      lookupKey o "error" = some (DocVal.obj e) →
      lookupKey e "code" = some (DocVal.str c) →
      lookupKey e "msg" = some (DocVal.str m) →
      Result.make o = Except.error (Err.exception ("Error " ++ c ++ ": " ++ m)) ∧
      Pod.make o = Except.error (Err.exception ("Error " ++ c ++ ": " ++ m))) ∧
    (lookupKey o "error" = none →
      Result.make o = Except.ok ⟨o⟩ ∧ Pod.make o = Except.ok ⟨o⟩) := by
  constructor
  · intro e c m he hc hm
    constructor <;> simp [Result.make, Pod.make, handle_error, he, hc, hm, pyStr]
  · intro h
    constructor <;> simp [Result.make, Pod.make, handle_error, h]

/-- Witness for C2 at a concrete error document and a concrete clean pod. -/
theorem C2_error_handler_witness :
    Result.make [("error", DocVal.obj [("code", DocVal.str "1"), ("msg", DocVal.str "Invalid appid")])]
      = Except.error (Err.exception "Error 1: Invalid appid")
    ∧ Pod.make [("@title", DocVal.str "Input")] = Except.ok ⟨[("@title", DocVal.str "Input")]⟩ := by
  constructor
  · have h := ((C2_error_handler_spec
        [("error", DocVal.obj [("code", DocVal.str "1"), ("msg", DocVal.str "Invalid appid")])]).1
        [("code", DocVal.str "1"), ("msg", DocVal.str "Invalid appid")]
        "1" "Invalid appid" rfl rfl rfl).1
    exact h.trans (by rfl)
  · exact ((C2_error_handler_spec [("@title", DocVal.str "Input")]).2 rfl).2

/-- C10: the construction-time error check inspects only the plain key
`error`; a backing mapping carrying the attribute key `@error` (whatever
its value) but no plain `error` key constructs a `Result` or a `Pod`
without raising. -/
theorem C10_attr_error_key_ignored (o : Obj) (v : DocVal)
    (_hat : lookupKey o "@error" = some v) (hpl : lookupKey o "error" = none) :
    Result.make o = Except.ok ⟨o⟩ ∧ Pod.make o = Except.ok ⟨o⟩ := by
  constructor <;> simp [Result.make, Pod.make, handle_error, hpl]

/-- Witness for C10 at a pod-style mapping with `@error = "true"`. -/
theorem C10_attr_error_key_ignored_witness :
    Result.make [("@error", DocVal.str "true")] = Except.ok ⟨[("@error", DocVal.str "true")]⟩
    ∧ Pod.make [("@error", DocVal.str "true")] = Except.ok ⟨[("@error", DocVal.str "true")]⟩ :=
  C10_attr_error_key_ignored [("@error", DocVal.str "true")] (DocVal.str "true") rfl rfl

/-- C7: `__getattr__` uses the plain key when present, falls back to the
`@`-prefixed key, applies the registered conversion (identity by
default) to the found value, and raises `AttributeError` only when
neither key exists — an outcome distinct from finding an empty-string
value. -/
theorem C7_getattr_protocol {α : Type} (o : Obj) (name : String)
    (conv : DocVal → Except Err α) :
    (∀ v, lookupKey o name = some v → getattr o name conv = conv v) ∧
    (∀ v, lookupKey o name = none → lookupKey o ("@" ++ name) = some v →
      getattr o name conv = conv v) ∧
    (lookupKey o name = none → lookupKey o ("@" ++ name) = none →
      getattr o name conv = Except.error (Err.attributeError name)) ∧
    (∀ s, (Except.error (Err.attributeError name) : Except Err DocVal)
      ≠ Except.ok (DocVal.str s)) := by
  refine ⟨?_, ?_, ?_, ?_⟩
  · intro v hv
    simp [getattr, rawAttr, hv]
  · intro v h1 h2
    simp [getattr, rawAttr, h1, h2]
  · intro h1 h2
    simp [getattr, rawAttr, h1, h2]
  · intro s h
    exact Except.noConfusion h

/-- Witness for C7: attribute-key fallback on a present-but-empty title. -/
theorem C7_getattr_protocol_witness :
    getattr [("@title", DocVal.str "")] "title" Except.ok = Except.ok (DocVal.str "") :=
  (C7_getattr_protocol [("@title", DocVal.str "")] "title" Except.ok).2.1
    (DocVal.str "") rfl rfl

/-- C3 counterexample: accessing `subpod` on a pod whose backing mapping
lacks the key (the decoded form of a pod with no subpod children) raises
`AttributeError('subpod')` — not the empty iterable the claim requires
for an absent child. -/
theorem C3_absent_child_counterexample :
    Pod.subpods ⟨[("@title", DocVal.str "Input")]⟩
      = Except.error (Err.attributeError "subpod")
    ∧ Pod.subpods ⟨[("@title", DocVal.str "Input")]⟩ ≠ Except.ok [] :=
  ⟨rfl, fun h => Except.noConfusion h⟩

/-- C3 (amended): `from_doc` normalizes a singleton mapping to exactly one
wrapped view and a `None` value (an absent or empty XML node) to an empty
sequence; accordingly `assumptions` and `warnings`, which go through
`dict.get`, yield an empty sequence when the key is absent, and
`pod`/`subpod`/`img` yield one wrapped view for a singleton child and an
empty sequence for a present-but-`None` child — but an absent
`pod`/`subpod`/`img` key raises `AttributeError` instead of yielding an
empty sequence. -/
theorem C3_from_doc_normalization :
    (∀ o : Obj, from_doc (fun o' => Except.ok o') (DocVal.obj o) = Except.ok [o]) ∧
    (∀ {α : Type} (mk : Obj → Except Err α), from_doc mk DocVal.null = Except.ok []) ∧
    (∀ (r : Result) (po : Obj), lookupKey r.toObj "pod" = some (DocVal.obj po) →
      lookupKey po "error" = none → Result.pods r = Except.ok [Pod.mk po]) ∧
    (∀ (p : Pod) (so : Obj), lookupKey p.toObj "subpod" = some (DocVal.obj so) →
      Pod.subpods p = Except.ok [Subpod.mk so]) ∧
    (∀ (sp : Subpod) (io : Obj), lookupKey sp.toObj "img" = some (DocVal.obj io) →
      Subpod.img sp = Except.ok [Image.mk io]) ∧
    (∀ r : Result, lookupKey r.toObj "assumptions" = none →
      Result.assumptions r = Except.ok []) ∧
    (∀ r : Result, lookupKey r.toObj "warnings" = none →
      Result.warnings r = Except.ok []) ∧
    (∀ p : Pod, lookupKey p.toObj "subpod" = some DocVal.null →
      Pod.subpods p = Except.ok []) ∧
    (∀ r : Result, lookupKey r.toObj "pod" = none →
      lookupKey r.toObj "@pod" = none →
      Result.pods r = Except.error (Err.attributeError "pod")) := by
  refine ⟨?_, ?_, ?_, ?_, ?_, ?_, ?_, ?_, ?_⟩
  · intro o
    simp [from_doc, always_iterable, List.mapM, List.mapM.loop]
  · intro α mk
    simp only [from_doc, always_iterable, List.mapM, List.mapM.loop]
    rfl
  · intro r po h he
    simp [Result.pods, getattr, rawAttr, h, from_doc, always_iterable,
      List.mapM, List.mapM.loop, Pod.make, handle_error, he]
  · intro p so h
    simp [Pod.subpods, getattr, rawAttr, h, from_doc, always_iterable,
      List.mapM, List.mapM.loop]
  · intro sp io h
    simp [Subpod.img, getattr, rawAttr, h, from_doc, always_iterable,
      List.mapM, List.mapM.loop]
  · intro r h
    simp only [Result.assumptions, h, from_doc, always_iterable, List.mapM, List.mapM.loop]
    rfl
  · intro r h
    simp only [Result.warnings, h, from_doc, always_iterable, List.mapM, List.mapM.loop]
    rfl
  · intro p h
    simp only [Pod.subpods, getattr, rawAttr, h, from_doc, always_iterable,
      List.mapM, List.mapM.loop]
    rfl
  · intro r h1 h2
    simp [Result.pods, getattr, rawAttr, h1, h2]

/-- Witness for C3 (amended): the doctest singleton, a singleton subpod,
an absent assumptions key, and the absent-pod attribute error, all at
concrete documents. -/
theorem C3_from_doc_normalization_witness :
    from_doc (fun o' => Except.ok o') (DocVal.obj [("foo", DocVal.str "bar")])
      = Except.ok [[("foo", DocVal.str "bar")]]
    ∧ Pod.subpods ⟨[("subpod", DocVal.obj [("plaintext", DocVal.str "pi")])]⟩
      = Except.ok [Subpod.mk [("plaintext", DocVal.str "pi")]]
    ∧ Result.assumptions ⟨[("@success", DocVal.str "true")]⟩ = Except.ok []
    ∧ Result.pods ⟨[("@success", DocVal.str "true")]⟩
      = Except.error (Err.attributeError "pod") := by
  refine ⟨?_, ?_, ?_, ?_⟩
  · exact C3_from_doc_normalization.1 [("foo", DocVal.str "bar")]
  · exact C3_from_doc_normalization.2.2.2.1
      ⟨[("subpod", DocVal.obj [("plaintext", DocVal.str "pi")])]⟩
      [("plaintext", DocVal.str "pi")] rfl
  · exact C3_from_doc_normalization.2.2.2.2.2.1 ⟨[("@success", DocVal.str "true")]⟩ rfl
  · exact C3_from_doc_normalization.2.2.2.2.2.2.2.2 ⟨[("@success", DocVal.str "true")]⟩ rfl rfl

/-- C4 counterexample: a real no-error response shape with zero pods
(`success="false"`, no `pod` element) constructs fine, but iterating it
and taking its length raise `AttributeError('pod')` instead of producing
the pods/assumptions/warnings concatenation and its count. -/
theorem C4_zero_pod_counterexample :
    Result.make [("@success", DocVal.str "false"), ("@numpods", DocVal.str "0")]
      = Except.ok ⟨[("@success", DocVal.str "false"), ("@numpods", DocVal.str "0")]⟩
    ∧ Result.info ⟨[("@success", DocVal.str "false"), ("@numpods", DocVal.str "0")]⟩
      = Except.error (Err.attributeError "pod")
    ∧ Result.length ⟨[("@success", DocVal.str "false"), ("@numpods", DocVal.str "0")]⟩
      = Except.error (Err.attributeError "pod") :=
  ⟨rfl, rfl, rfl⟩

/-- C4 (amended): a no-error document always constructs, and whenever the
`pods`, `assumptions` and `warnings` accessors all succeed (in
particular the `pod` key must be present), iterating the `Result` yields
exactly the pods, then the assumptions, then the warnings, and its
length is the sum of the three lengths; when the `pod` key is absent the
iteration itself raises `AttributeError` although construction
succeeded. -/
theorem C4_info_spec (r : Result) (ps : List Pod) (asms : List Assumption)
    (ws : List Warning)
    (hp : Result.pods r = Except.ok ps)
    (ha : Result.assumptions r = Except.ok asms)
    (hw : Result.warnings r = Except.ok ws) :
    (lookupKey r.toObj "error" = none → Result.make r.toObj = Except.ok r) ∧
    Result.info r
      = Except.ok (ps.map Info.pod ++ asms.map Info.assumption ++ ws.map Info.warning) ∧
    Result.length r = Except.ok (ps.length + asms.length + ws.length) := by
  refine ⟨?_, ?_, ?_⟩
  · intro h
    cases r
    simp [Result.make, handle_error, h]
  · simp [Result.info, hp, ha, hw]
  · simp [Result.length, Result.info, hp, ha, hw, Nat.add_assoc]

/-- Witness for C4 (amended) at a document with one pod and one
assumptions container: length 2 = 1 + 1 + 0. -/
theorem C4_info_spec_witness :
    Result.make [("pod", DocVal.obj [("@title", DocVal.str "Result"),
        ("subpod", DocVal.obj [("plaintext", DocVal.str "3")])]),
      ("assumptions", DocVal.obj [("@count", DocVal.str "1")])]
      = Except.ok ⟨[("pod", DocVal.obj [("@title", DocVal.str "Result"),
          ("subpod", DocVal.obj [("plaintext", DocVal.str "3")])]),
        ("assumptions", DocVal.obj [("@count", DocVal.str "1")])]⟩
    ∧ Result.length ⟨[("pod", DocVal.obj [("@title", DocVal.str "Result"),
          ("subpod", DocVal.obj [("plaintext", DocVal.str "3")])]),
        ("assumptions", DocVal.obj [("@count", DocVal.str "1")])]⟩
      = Except.ok 2 := by
  have h := C4_info_spec
    ⟨[("pod", DocVal.obj [("@title", DocVal.str "Result"),
        ("subpod", DocVal.obj [("plaintext", DocVal.str "3")])]),
      ("assumptions", DocVal.obj [("@count", DocVal.str "1")])]⟩
    [Pod.mk [("@title", DocVal.str "Result"),
      ("subpod", DocVal.obj [("plaintext", DocVal.str "3")])]]
    [Assumption.mk [("@count", DocVal.str "1")]] [] rfl rfl rfl
  exact ⟨h.1 rfl, h.2.2.trans (by rfl)⟩

/-- C5 counterexample: `xml_bool` is `bool(json.loads(_))`, so the JSON
text `"1"` is truthiness-coerced to `True` instead of raising a decoding
error as the claim requires for every string other than `"true"` and
`"false"`. -/
theorem C5_xml_bool_counterexample : xml_bool "1" = Except.ok true := rfl

/-- C5 (amended): `xml_bool` maps `"true"` to true and `"false"` to
false, and a non-JSON string such as `"maybe"` raises a decoding error —
but other JSON literals are silently truthiness-coerced rather than
rejected (e.g. `"0"` and `"null"` give false). -/
theorem C5_xml_bool_spec :
    xml_bool "true" = Except.ok true
    ∧ xml_bool "false" = Except.ok false
    ∧ xml_bool "maybe" = Except.error Err.valueError
    ∧ xml_bool "0" = Except.ok false
    ∧ xml_bool "null" = Except.ok false :=
  ⟨rfl, rfl, rfl, rfl, rfl⟩

/-- C6: `Assumption.text` substitutes the description at
`$\x7bdesc1\x7d`, then substitutes the word at `$\x7bword\x7d` when the
`word` attribute is present (and silently skips that substitution when
the lookup raises `AttributeError`), and returns the rendered string cut
off at the index of the first `". "` plus one character. -/
theorem C6_assumption_text (a : Assumption) (t d : String) (i : Nat)
    (ht : rawAttr a.toObj "template" = Except.ok (DocVal.str t))
    (hd : rawAttr a.toObj "description" = Except.ok (DocVal.str d)) :
    (rawAttr a.toObj "word" = Except.error (Err.attributeError "word") →
      indexOfSub ". ".toList (pyReplace t "${desc1}" d).toList = some i →
      Assumption.text a = Except.ok (pySlice (pyReplace t "${desc1}" d) (i + 1))) ∧
    (∀ w, rawAttr a.toObj "word" = Except.ok (DocVal.str w) →
      indexOfSub ". ".toList
          (pyReplace (pyReplace t "${desc1}" d) "${word}" w).toList = some i →
      Assumption.text a
        = Except.ok (pySlice (pyReplace (pyReplace t "${desc1}" d) "${word}" w) (i + 1))) := by
  constructor
  · intro hw hi
    have hi' : indexOfSub ['.', ' '] (pyReplace t "${desc1}" d).data = some i := hi
    simp [Assumption.text, ht, hd, hw, hi']
  · intro w hw hi
    have hi' : indexOfSub ['.', ' ']
        (pyReplace (pyReplace t "${desc1}" d) "${word}" w).data = some i := hi
    simp [Assumption.text, ht, hd, hw, hi']

/-- Witness for C6: the spec's example — template
`"Assuming $\x7bdesc1\x7d. Use $\x7bword\x7d instead?"`, description
`"x is a constant"`, no word attribute — renders to exactly
`"Assuming x is a constant."`. -/
theorem C6_assumption_text_witness :
    Assumption.text ⟨[("@template", DocVal.str "Assuming ${desc1}. Use ${word} instead?"),
        ("@description", DocVal.str "x is a constant")]⟩
      = Except.ok "Assuming x is a constant." := by
  have h := (C6_assumption_text
      ⟨[("@template", DocVal.str "Assuming ${desc1}. Use ${word} instead?"),
        ("@description", DocVal.str "x is a constant")]⟩
      "Assuming ${desc1}. Use ${word} instead?" "x is a constant" 24 rfl rfl).1 rfl rfl
  exact h.trans (by rfl)

/-- C8: a pod lacking the `@primary` attribute has `primary = False`
without an error; `isPrimaryOrResult` succeeds with `true` exactly when
the primary flag is true or (the flag being false) the title equals the
string `"Result"`; and `Result.results` is the pods filtered by that
decision, in pod order, whenever the decision is defined on every pod. -/
theorem C8_results_spec :
    (∀ p : Pod, lookupKey p.toObj "@primary" = none → Pod.primary p = Except.ok false) ∧
    (∀ (p : Pod) (b : Bool), Pod.isPrimaryOrResult p = Except.ok b →
      (b = true ↔ Pod.primary p = Except.ok true ∨
        (Pod.primary p = Except.ok false ∧ Pod.title p = Except.ok (DocVal.str "Result")))) ∧
    (∀ (r : Result) (ps : List Pod), Result.pods r = Except.ok ps →
      (∀ p ∈ ps, ∃ b, Pod.isPrimaryOrResult p = Except.ok b) →
      Result.results r = Except.ok (ps.filter Pod.keepInResults)) := by
  refine ⟨?_, ?_, ?_⟩
  · intro p h
    simp [Pod.primary, h]
  · intro p b hb
    cases hp : Pod.primary p with
    | error e =>
      simp [Pod.isPrimaryOrResult, hp] at hb
    | ok bp =>
      cases bp with
      | true =>
        simp [Pod.isPrimaryOrResult, hp] at hb
        subst hb
        simp
      | false =>
        cases ht : Pod.title p with
        | error e =>
          simp [Pod.isPrimaryOrResult, hp, ht] at hb
        | ok tv =>
          cases tv with
          | str s =>
            simp [Pod.isPrimaryOrResult, hp, ht] at hb
            subst hb
            simp
          | null =>
            simp [Pod.isPrimaryOrResult, hp, ht] at hb
            subst hb
            simp
          | obj fs =>
            simp [Pod.isPrimaryOrResult, hp, ht] at hb
            subst hb
            simp
          | arr xs =>
            simp [Pod.isPrimaryOrResult, hp, ht] at hb
            subst hb
            simp
  · intro r ps hp hall
    have hdec : ∀ p ∈ ps, Pod.isPrimaryOrResult p = Except.ok (Pod.keepInResults p) := by
      intro p hpm
      obtain ⟨b, hb⟩ := hall p hpm
      cases b with
      | true => rw [hb]; simp [Pod.keepInResults, hb]
      | false => rw [hb]; simp [Pod.keepInResults, hb]
    rw [show Result.results r = filterExc Pod.isPrimaryOrResult ps by
      simp [Result.results, hp]]
    exact filterExc_eq_filter _ _ ps hdec

/-- Witness for C8: of three pods — primary, titled `"Result"`, and
neither — `results` keeps exactly the first two, in order; and `primary`
is false on a pod without the attribute. -/
theorem C8_results_spec_witness :
    Result.results ⟨[("pod", DocVal.arr
        [DocVal.obj [("@title", DocVal.str "Approximation"), ("@primary", DocVal.str "true")],
         DocVal.obj [("@title", DocVal.str "Result")],
         DocVal.obj [("@title", DocVal.str "Input")]])]⟩
      = Except.ok [Pod.mk [("@title", DocVal.str "Approximation"), ("@primary", DocVal.str "true")],
                   Pod.mk [("@title", DocVal.str "Result")]]
    ∧ Pod.primary (Pod.mk [("@title", DocVal.str "Input")]) = Except.ok false := by
  constructor
  · have hall : ∀ p ∈ [Pod.mk [("@title", DocVal.str "Approximation"), ("@primary", DocVal.str "true")],
        Pod.mk [("@title", DocVal.str "Result")],
        Pod.mk [("@title", DocVal.str "Input")]],
        ∃ b, Pod.isPrimaryOrResult p = Except.ok b := by
      intro p hp
      simp only [List.mem_cons, List.not_mem_nil, or_false] at hp
      rcases hp with h1 | h2 | h3
      · exact ⟨true, by rw [h1]; rfl⟩
      · exact ⟨true, by rw [h2]; rfl⟩
      · exact ⟨false, by rw [h3]; rfl⟩
    have h := C8_results_spec.2.2
      ⟨[("pod", DocVal.arr
        [DocVal.obj [("@title", DocVal.str "Approximation"), ("@primary", DocVal.str "true")],
         DocVal.obj [("@title", DocVal.str "Result")],
         DocVal.obj [("@title", DocVal.str "Input")]])]⟩
      [Pod.mk [("@title", DocVal.str "Approximation"), ("@primary", DocVal.str "true")],
       Pod.mk [("@title", DocVal.str "Result")],
       Pod.mk [("@title", DocVal.str "Input")]] rfl hall
    exact h.trans (by rfl)
  · exact C8_results_spec.1 (Pod.mk [("@title", DocVal.str "Input")]) rfl

/-- C9: on a pod whose subpod list is nonempty, `Pod.text` is the plain
text of the first subpod; on a pod whose subpod list is empty it raises
`StopIteration` (an empty-sequence failure, a different exception from
the missing-attribute `AttributeError`). -/
theorem C9_pod_text_spec (p : Pod) :
    (∀ (sp : Subpod) (rest : List Subpod), Pod.subpods p = Except.ok (sp :: rest) →
      Pod.text p = Subpod.plaintext sp) ∧
    (Pod.subpods p = Except.ok [] →
      Pod.text p = Except.error Err.stopIteration) ∧
    (∀ s, Err.stopIteration ≠ Err.attributeError s) := by
  refine ⟨?_, ?_, ?_⟩
  · intro sp rest h
    simp [Pod.text, h]
  · intro h
    simp [Pod.text, h]
  · intro s h
    exact Err.noConfusion h

/-- Witness for C9: a one-subpod pod yields its plain text; a pod whose
`subpod` element decoded to `None` (zero subpods) raises `StopIteration`. -/
theorem C9_pod_text_spec_witness :
    Pod.text ⟨[("subpod", DocVal.obj [("plaintext", DocVal.str "3.14")])]⟩
      = Except.ok (DocVal.str "3.14")
    ∧ Pod.text ⟨[("subpod", DocVal.null)]⟩ = Except.error Err.stopIteration := by
  constructor
  · have h := (C9_pod_text_spec ⟨[("subpod", DocVal.obj [("plaintext", DocVal.str "3.14")])]⟩).1
      (Subpod.mk [("plaintext", DocVal.str "3.14")]) [] rfl
    exact h.trans (by rfl)
  · exact (C9_pod_text_spec ⟨[("subpod", DocVal.null)]⟩).2.1 rfl

/-- C1: at a well-formed document with one pod titled `"Result"` holding
one subpod of plain text `"3.14159"`, `Result.details` raises
`AttributeError('plainText')` instead of mapping the title to the first
subpod's plain text: the comprehension asks each pod for `plainText`, a
key pod mappings do not carry (the subpods hold `plaintext`). -/
theorem C1_details_attribute_error :
    (Result.make [("pod", DocVal.obj
        [("@title", DocVal.str "Result"),
         ("subpod", DocVal.obj [("plaintext", DocVal.str "3.14159")])])]).bind Result.details
      = Except.error (Err.attributeError "plainText")
    ∧ (Result.make [("pod", DocVal.obj
        [("@title", DocVal.str "Result"),
         ("subpod", DocVal.obj [("plaintext", DocVal.str "3.14159")])])]).bind Result.details
      ≠ Except.ok [(DocVal.str "Result", DocVal.str "3.14159")] :=
  ⟨rfl, fun h => Except.noConfusion h⟩
